import Mathlib

/-!
# Verification of the SimSlider handedness monitor

Shallow embedding of `src/gspro_ocr_final.py` and `src/gspro_monitor.py`
(class `GSProHandednessMonitor`): the debounce state machine in `run`, the
constructor `__init__`, the OCR pipeline's error handling
(`capture_region` / `extract_handedness`), the output file writer
`write_handedness`, and the serial actuator channel
(`send_arduino_command` / `connect_arduino`).

Python values are modelled as follows: the OCR result strings `'RH'`/`'LH'`
become the inductive `Handed`; a Python value that may be `None` becomes an
`Option`; a Python function that may raise becomes an `Except String`
result; the per-tick environment of the serial code (which exceptions the
port raises, whether an acknowledgment line arrives) becomes an explicit
`AttemptEnv` record consumed by the transcribed control flow.
-/

/-- The two recognised handedness readings, `'RH'` and `'LH'`. -/
inductive Handed where
  | RH
  | LH
deriving DecidableEq, Repr

/-- A `Signal` for one poll tick: `some h` when `extract_handedness`
returned a reading, `none` when it returned `None` (Unknown). -/
abbrev Signal := Option Handed

/-- The debounce fields of `GSProHandednessMonitor`:
`current_handedness`, `pending_handedness`, `pending_count`.
`current = none` is the initial `Unset` state; `pending = none` means no
candidate is accumulating. -/
structure DebounceState where
  current : Option Handed
  pending : Option Handed
  pendingCount : Nat
deriving DecidableEq, Repr

/-- The fields as set by `__init__`: `current_handedness = None`,
`pending_handedness = None`, `pending_count = 0`. -/
def initState : DebounceState := ⟨none, none, 0⟩

/-- One tick of the debounce logic in `GSProHandednessMonitor.run`
(`gspro_ocr_final.py` lines 125-162, identical in `gspro_monitor.py`
lines 343-376).  Returns the updated state and `some h` exactly when the
tick prints `CHANGED TO` (the `StateChange` event); the side effects on
change (file write, Arduino send) are driven by that event. -/
def observe (confirmations : Nat) (s : DebounceState) (sig : Signal) :
    DebounceState × Option Handed :=
  match sig with
  | none => (s, none)        -- `if handedness:` is false: don't reset anything
  | some h =>
    if some h ≠ s.current then       -- `if handedness != self.current_handedness:`
      if s.pending = some h then     -- `if handedness == self.pending_handedness:`
        let c := s.pendingCount + 1  -- `self.pending_count += 1`
        if confirmations ≤ c then    -- `if self.pending_count >= self.confirmations:`
          (⟨some h, none, 0⟩, some h)
        else
          (⟨s.current, s.pending, c⟩, none)
      else                           -- new pending value, start counting
        (⟨s.current, some h, 1⟩, none)
    else                             -- same as current: reset pending
      if s.pending ≠ none then (⟨s.current, none, 0⟩, none) else (s, none)

/-- The debounce state after feeding a list of signals, one per tick. -/
def runState (confirmations : Nat) (s : DebounceState) :
    List Signal → DebounceState
  | [] => s
  | sig :: rest => runState confirmations (observe confirmations s sig).1 rest

/-- The per-tick outputs (`some h` on a `CHANGED TO` tick, else `none`)
of feeding a list of signals. -/
def runOuts (confirmations : Nat) (s : DebounceState) :
    List Signal → List (Option Handed)
  | [] => []
  | sig :: rest =>
    (observe confirmations s sig).2 ::
      runOuts confirmations (observe confirmations s sig).1 rest

/-- The list of (state before the tick, output of the tick) pairs of a run. -/
def runPairs (confirmations : Nat) (s : DebounceState) :
    List Signal → List (DebounceState × Option Handed)
  | [] => []
  | sig :: rest =>
    (s, (observe confirmations s sig).2) ::
      runPairs confirmations (observe confirmations s sig).1 rest

/-- `pending_count`/`pending_handedness` invariant of the debounce fields:
a positive count means a candidate is set and that candidate differs from
the current confirmed value. -/
def DebounceInv (s : DebounceState) : Prop :=
  (0 < s.pendingCount → s.pending ≠ none) ∧
    (0 < s.pendingCount → s.pending ≠ s.current)

instance (s : DebounceState) : Decidable (DebounceInv s) := by
  unfold DebounceInv; infer_instance

lemma observe_snd_ne_current (T : Nat) (s : DebounceState) (sig : Signal)
    (v : Handed) (h : (observe T s sig).2 = some v) : s.current ≠ some v := by
  cases sig with
  | none => simp [observe] at h
  | some x =>
    by_cases hx : some x = s.current
    · simp only [observe, hx, ne_eq, not_true_eq_false, if_false, ite_not] at h
      split at h <;> simp_all
    · simp only [observe, ne_eq, hx, not_false_eq_true, if_true] at h
      split at h
      · split at h <;> simp_all
        intro hc
        exact hx hc.symm
      · simp_all

lemma observe_preserves_inv (T : Nat) (s : DebounceState) (sig : Signal)
    (hs : DebounceInv s) : DebounceInv (observe T s sig).1 := by
  cases sig with
  | none => simpa [observe] using hs
  | some x =>
    simp only [observe]
    split
    next hne =>
      split
      next hpend =>
        split
        next =>
          exact ⟨fun hc => absurd hc (lt_irrefl 0), fun hc => absurd hc (lt_irrefl 0)⟩
        next =>
          refine ⟨fun _ => ?_, fun _ => ?_⟩
          · show s.pending ≠ none
            rw [hpend]; simp
          · show s.pending ≠ s.current
            rw [hpend]; exact hne
      next hpend =>
        refine ⟨fun _ => ?_, fun _ => ?_⟩
        · show (some x : Option Handed) ≠ none
          simp
        · show some x ≠ s.current
          exact hne
    next hne =>
      split
      next =>
        exact ⟨fun hc => absurd hc (lt_irrefl 0), fun hc => absurd hc (lt_irrefl 0)⟩
      next => exact hs

lemma runState_preserves_inv (T : Nat) (l : List Signal) :
    ∀ s : DebounceState, DebounceInv s → DebounceInv (runState T s l) := by
  induction l with
  | nil => intro s hs; simpa [runState] using hs
  | cons sig rest ih =>
    intro s hs
    exact ih _ (observe_preserves_inv T s sig hs)

lemma observe_count_lt (T : Nat) (hT : 2 ≤ T) (s : DebounceState) (sig : Signal)
    (hs : s.pendingCount < T) : (observe T s sig).1.pendingCount < T := by
  cases sig with
  | none => simpa [observe] using hs
  | some x =>
    simp only [observe]
    split
    next =>
      split
      next =>
        split
        next => show 0 < T; omega
        next => show s.pendingCount + 1 < T; omega
      next => show 1 < T; omega
    next =>
      split
      next => show 0 < T; omega
      next => exact hs

lemma runState_count_lt (T : Nat) (hT : 2 ≤ T) (l : List Signal) :
    ∀ s : DebounceState, s.pendingCount < T → (runState T s l).pendingCount < T := by
  induction l with
  | nil => intro s hs; simpa [runState] using hs
  | cons sig rest ih =>
    intro s hs
    exact ih _ (observe_count_lt T hT s sig hs)

/-- Derived from the spec's words for claim C1 (refinement reference, not
from the source): the expected per-tick outputs when a change is "emitted
exactly when the cumulative matching count reaches `T`", with `k` the count
of matching signals already observed. A tick's output is a change to `h`
precisely when the tick's signal matches `h` and brings the cumulative
matching count to exactly `T`. -/
def specCumulativeOuts (h : Handed) (T : Nat) : Nat → List Signal → List (Option Handed)
  | _, [] => []
  | k, sig :: rest =>
    (if sig = some h ∧ (if sig = some h then k + 1 else k) = T then some h else none) ::
      specCumulativeOuts h T (if sig = some h then k + 1 else k) rest

lemma specCumulativeOuts_of_ge (h : Handed) (T : Nat) :
    ∀ (l : List Signal) (k : Nat), T ≤ k →
      specCumulativeOuts h T k l = List.replicate l.length none := by
  intro l
  induction l with
  | nil => intro k _; rfl
  | cons sig rest ih =>
    intro k hk
    by_cases hs : sig = some h
    · subst hs
      simp only [specCumulativeOuts, List.length_cons, List.replicate_succ,
        List.cons.injEq]
      refine ⟨by simp [show ¬(k + 1 = T) by omega], ?_⟩
      simpa using ih (k + 1) (by omega)
    · simp only [specCumulativeOuts, List.length_cons, List.replicate_succ, if_neg hs,
        List.cons.injEq]
      exact ⟨by simp [hs], ih k hk⟩

lemma runOuts_of_confirmed (T : Nat) (h : Handed) :
    ∀ l : List Signal, (∀ x ∈ l, x = some h ∨ x = none) →
      runOuts T ⟨some h, none, 0⟩ l = List.replicate l.length none := by
  intro l
  induction l with
  | nil => intro _; rfl
  | cons sig rest ih =>
    intro hl
    rcases hl sig (by simp) with hs | hs <;> subst hs
    · simp only [runOuts, List.length_cons, List.replicate_succ]
      have hobs : observe T ⟨some h, none, 0⟩ (some h) = (⟨some h, none, 0⟩, none) := by
        simp [observe]
      rw [hobs]
      exact congrArg _ (ih fun x hx => hl x (by simp [hx]))
    · simp only [runOuts, List.length_cons, List.replicate_succ]
      have hobs : observe T ⟨some h, none, 0⟩ none = (⟨some h, none, 0⟩, none) := rfl
      rw [hobs]
      exact congrArg _ (ih fun x hx => hl x (by simp [hx]))

lemma runOuts_matches_spec (T : Nat) (hT : 2 ≤ T) (h : Handed) (c : Option Handed)
    (hc : c ≠ some h) :
    ∀ (l : List Signal) (k : Nat), k < T → (∀ x ∈ l, x = some h ∨ x = none) →
      runOuts T ⟨c, if k = 0 then none else some h, k⟩ l =
        specCumulativeOuts h T k l := by
  intro l
  induction l with
  | nil => intro k _ _; rfl
  | cons sig rest ih =>
    intro k hk hl
    have hrest : ∀ x ∈ rest, x = some h ∨ x = none :=
      fun x hx => hl x (by simp [hx])
    rcases hl sig (by simp) with hs | hs <;> subst hs
    · -- matching signal
      rcases Nat.eq_zero_or_pos k with hk0 | hkpos
      · subst hk0
        show runOuts T ⟨c, none, 0⟩ (some h :: rest) =
          specCumulativeOuts h T 0 (some h :: rest)
        have hobs : observe T ⟨c, none, 0⟩ (some h) = (⟨c, some h, 1⟩, none) := by
          simp [observe, Ne.symm hc]
        simp only [runOuts, specCumulativeOuts, hobs, List.cons.injEq]
        refine ⟨by simp [show ¬(0 + 1 = T) by omega], ?_⟩
        have := ih 1 (by omega) hrest
        simpa using this
      · have hk0 : ¬ k = 0 := by omega
        by_cases hconf : T ≤ k + 1
        · have hkT : k + 1 = T := by omega
          have hobs : observe T ⟨c, if k = 0 then none else some h, k⟩ (some h) =
              (⟨some h, none, 0⟩, some h) := by
            simp [observe, Ne.symm hc, hk0, hconf]
          simp only [runOuts, specCumulativeOuts, hobs, List.cons.injEq]
          refine ⟨by simp [hkT], ?_⟩
          rw [runOuts_of_confirmed T h rest hrest]
          simp only [if_true, eq_self_iff_true, if_pos]
          exact (specCumulativeOuts_of_ge h T rest (k + 1) (by omega)).symm
        · have hobs : observe T ⟨c, if k = 0 then none else some h, k⟩ (some h) =
              (⟨c, some h, k + 1⟩, none) := by
            simp [observe, Ne.symm hc, hk0, hconf]
          simp only [runOuts, specCumulativeOuts, hobs, List.cons.injEq]
          refine ⟨by simp [show ¬(k + 1 = T) by omega], ?_⟩
          have := ih (k + 1) (by omega) hrest
          simpa [show ¬(k + 1 = 0) by omega] using this
    · -- Unknown signal: state untouched, no output
      have hobs : observe T ⟨c, if k = 0 then none else some h, k⟩ none =
          (⟨c, if k = 0 then none else some h, k⟩, none) := rfl
      simp only [runOuts, specCumulativeOuts, hobs, List.cons.injEq]
      refine ⟨by simp, ?_⟩
      simpa using ih k hk hrest

example : observe 1 initState (some .RH) = (⟨none, some .RH, 1⟩, none) := by decide
example : runOuts 2 initState [some .RH, some .RH] = [none, some .RH] := by decide
example : runOuts 2 initState [some .RH, none, some .RH] = [none, none, some .RH] := by
  decide
example : runOuts 2 initState [some .RH, some .LH, some .RH, some .RH] =
    [none, none, none, some .RH] := by decide

/-- C1 (amended): for every confirmation threshold `T ≥ 2`, from any
just-confirmed or initial state whose confirmed value differs from `h`, and
for every input sequence built from matching signals `some h` and `Unknown`
(`none`) signals, a change of confirmed state is emitted exactly at the tick
where the cumulative count of matching signals reaches `T`; intervening
`Unknown` signals neither reset nor advance the count.  (The original claim
also asserted this for `T = 1`, which the code violates: the first matching
signal only installs the pending candidate and performs no threshold
check.) -/
theorem debounce_cumulative_threshold_T_ge_two (T : Nat) (h : Handed)
    (c : Option Handed) (l : List Signal) (hT : 2 ≤ T) (hc : c ≠ some h)
    (hl : ∀ x ∈ l, x = some h ∨ x = none) :
    runOuts T ⟨c, none, 0⟩ l = specCumulativeOuts h T 0 l := by
  have := runOuts_matches_spec T hT h c hc l 0 (by omega) hl
  simpa using this

/-- Witness for C1's amended theorem: threshold 2, one matching signal, an
`Unknown`, then a second matching signal; the change is emitted on the tick
where the cumulative matching count reaches 2. -/
theorem debounce_cumulative_threshold_witness :
    runOuts 2 ⟨none, none, 0⟩ [some Handed.RH, none, some Handed.RH] =
      specCumulativeOuts Handed.RH 2 0 [some Handed.RH, none, some Handed.RH] :=
  debounce_cumulative_threshold_T_ge_two 2 Handed.RH none
    [some Handed.RH, none, some Handed.RH] (by decide) (by decide) (by decide)

/-- Counterexample to C1 as stated: with threshold `T = 1` and the single
input `[Right]`, one matching signal differing from the confirmed value has
been observed (the cumulative matching count has reached `T`), yet no change
is emitted — the code only installs the pending candidate. -/
theorem debounce_threshold_one_spec_mismatch :
    runOuts 1 ⟨none, none, 0⟩ [some Handed.RH] = [none] ∧
      specCumulativeOuts Handed.RH 1 0 [some Handed.RH] = [some Handed.RH] := by
  decide

/-- Counterexample to C2 as stated: with threshold 1, a single signal
(`Right`) differing from the confirmed value (initially `Unset`) is *not*
immediately accepted: no `StateChange` is emitted on that tick, the signal
merely becomes the pending candidate with count 1. -/
theorem threshold_one_single_signal_not_accepted :
    (observe 1 initState (some Handed.RH)).2 = none ∧
      initState.current ≠ some Handed.RH ∧
      (observe 1 initState (some Handed.RH)).1 = ⟨none, some Handed.RH, 1⟩ := by
  decide

/-- C2 (amended): with confirmation threshold 1, a single differing signal
is not accepted immediately; it installs the pending candidate with count 1
and no emission, and the *second* consecutive matching signal confirms the
change (emitting the `StateChange` on that second tick). -/
theorem threshold_one_confirms_on_second_signal (c : Option Handed) (h : Handed)
    (hc : c ≠ some h) :
    observe 1 ⟨c, none, 0⟩ (some h) = (⟨c, some h, 1⟩, none) ∧
      observe 1 ⟨c, some h, 1⟩ (some h) = (⟨some h, none, 0⟩, some h) := by
  constructor
  · simp [observe, Ne.symm hc]
  · simp [observe, Ne.symm hc]

/-- Witness for C2's amended theorem at `confirmed = Unset`, signal
`Right`. -/
theorem threshold_one_confirms_on_second_signal_witness :
    observe 1 ⟨none, none, 0⟩ (some Handed.RH) = (⟨none, some Handed.RH, 1⟩, none) ∧
      observe 1 ⟨none, some Handed.RH, 1⟩ (some Handed.RH) =
        (⟨some Handed.RH, none, 0⟩, some Handed.RH) :=
  threshold_one_confirms_on_second_signal none Handed.RH (by decide)

/-- C5: for every sequence of signals fed from the initial state, whenever a
tick emits a `StateChange` to value `v`, the state confirmed immediately
before that tick differed from `v`. -/
theorem no_statechange_to_previous_confirmed (T : Nat) (l : List Signal)
    (p : DebounceState × Option Handed) (hp : p ∈ runPairs T initState l)
    (v : Handed) (hv : p.2 = some v) : p.1.current ≠ some v := by
  have hgen : ∀ (l' : List Signal) (s : DebounceState)
      (q : DebounceState × Option Handed), q ∈ runPairs T s l' →
      ∀ w, q.2 = some w → q.1.current ≠ some w := by
    intro l'
    induction l' with
    | nil => intro s q hq; simp [runPairs] at hq
    | cons sig rest ih =>
      intro s q hq w hw
      simp only [runPairs, List.mem_cons] at hq
      rcases hq with hq | hq
      · subst hq
        exact observe_snd_ne_current T s sig w hw
      · exact ih _ q hq w hw
  exact hgen l initState p hp v hv

/-- Witness for C5: threshold 1, inputs `[Right, Right]`; the second tick
emits a change to `Right` and the state before it had `confirmed = Unset`. -/
theorem no_statechange_to_previous_confirmed_witness :
    (⟨⟨none, some Handed.RH, 1⟩, some Handed.RH⟩ :
        DebounceState × Option Handed).1.current ≠ some Handed.RH :=
  no_statechange_to_previous_confirmed 1 [some Handed.RH, some Handed.RH]
    ⟨⟨none, some Handed.RH, 1⟩, some Handed.RH⟩ (by decide) Handed.RH (by decide)

/-- C6: the `DebounceState` invariant holds after every `Observe` call
reachable from the initial state: a positive `pending_count` implies the
pending candidate is set and differs from the confirmed value. -/
theorem debounce_invariant_after_every_observe (T : Nat) (l : List Signal) :
    DebounceInv (runState T initState l) :=
  runState_preserves_inv T l initState (by decide)

/-- Witness for C6: threshold 3, one `Right` input leaves a positive pending
count, and the invariant then yields both conjuncts. -/
theorem debounce_invariant_witness :
    (runState 3 initState [some Handed.RH]).pending ≠ none ∧
      (runState 3 initState [some Handed.RH]).pending ≠
        (runState 3 initState [some Handed.RH]).current :=
  ⟨(debounce_invariant_after_every_observe 3 [some Handed.RH]).1 (by decide),
    (debounce_invariant_after_every_observe 3 [some Handed.RH]).2 (by decide)⟩

/-- C10: for every threshold `T ≥ 2`, after each `Observe` call from the
initial state the pending count is strictly below `T` — the counter is
cleared in the same tick it reaches the threshold. -/
theorem pending_count_lt_threshold (T : Nat) (hT : 2 ≤ T) (l : List Signal) :
    (runState T initState l).pendingCount < T :=
  runState_count_lt T hT l initState (by show 0 < T; omega)

/-- Witness for C10 at threshold 2 after one matching input. -/
theorem pending_count_lt_threshold_witness :
    (runState 2 initState [some Handed.RH]).pendingCount < 2 :=
  pending_count_lt_threshold 2 (by decide) [some Handed.RH]

/-- Raw pixel data of the captured screen region (`Image.frombytes` result). -/
structure Frame where
  bytes : List Nat
deriving DecidableEq, Repr

/-- `GSProHandednessMonitor.extract_handedness`: the OCR calls and text
heuristics (abstracted as `classifyRaw`, which may raise) are wrapped in a
`try/except Exception` that returns `None` on any exception, so
classification itself never propagates an error. -/
def extract_handedness (classifyRaw : Frame → Except String (Option Handed))
    (img : Frame) : Option Handed :=
  match classifyRaw img with
  | .ok r => r
  | .error _ => none

/-- One iteration of the `while True` body of `run`
(`gspro_ocr_final.py` lines 116-168): `img = self.capture_region()` is NOT
wrapped in any `try/except` — an exception from the screen grab escapes the
loop (only `KeyboardInterrupt` is handled outside it), terminating the
monitor — and then `extract_handedness` (which catches its own errors)
feeds the debounce step. -/
def pollTick (T : Nat) (s : DebounceState) (captureResult : Except String Frame)
    (classifyRaw : Frame → Except String (Option Handed)) :
    Except String (DebounceState × Option Handed) :=
  match captureResult with
  | .error e => .error e
  | .ok img => .ok (observe T s (extract_handedness classifyRaw img))

/-- Counterexample to C3 as stated: when `capture_region` raises, the tick
does NOT treat the signal as `Unknown` with the loop continuing — the
exception propagates out of the tick (terminating the poll loop), instead of
producing the unchanged-state, no-output result `.ok (s, none)`. -/
theorem capture_exception_not_caught :
    pollTick 2 initState (.error "mss grab failed") (fun _ => .ok none) =
      .error "mss grab failed" ∧
    pollTick 2 initState (.error "mss grab failed") (fun _ => .ok none) ≠
      .ok (initState, none) := by
  refine ⟨rfl, fun hcontra => ?_⟩
  simp [pollTick] at hcontra

/-- C3 (amended): exceptions raised during classification are caught inside
`extract_handedness` and treated as `Unknown` — the debounce state is
unchanged, no output is emitted, and the loop continues — but exceptions
raised while capturing the frame are NOT caught: they propagate out of the
tick and terminate the poll loop. -/
theorem classify_errors_unknown_capture_errors_propagate :
    (∀ (T : Nat) (s : DebounceState) (img : Frame) (e : String)
        (classifyRaw : Frame → Except String (Option Handed)),
        classifyRaw img = .error e →
        pollTick T s (.ok img) classifyRaw = .ok (s, none)) ∧
      (∀ (T : Nat) (s : DebounceState) (e : String)
        (classifyRaw : Frame → Except String (Option Handed)),
        pollTick T s (.error e) classifyRaw = .error e) := by
  refine ⟨fun T s img e classifyRaw hcl => ?_, fun T s e classifyRaw => rfl⟩
  simp [pollTick, extract_handedness, hcl, observe]

/-- Witness for C3's amended theorem: a concrete failing classifier maps to
`Unknown` and leaves the initial state unchanged. -/
theorem classify_errors_unknown_witness :
    pollTick 2 initState (.ok ⟨[0]⟩) (fun _ => .error "tesseract failed") =
      .ok (initState, none) :=
  classify_errors_unknown_capture_errors_propagate.1 2 initState ⟨[0]⟩
    "tesseract failed" (fun _ => .error "tesseract failed") rfl

/-- The screen-region dictionary passed to the constructor. -/
structure Region where
  left : Int
  top : Int
  width : Int
  height : Int
deriving DecidableEq, Repr

/-- The fields assigned by `GSProHandednessMonitor.__init__`
(`gspro_ocr_final.py` lines 9-18; `gspro_monitor.py` adds Arduino fields
and an optional `connect_arduino` call that catches its own exceptions). -/
structure MonitorState where
  region : Region
  output_file : String
  interval : Rat
  confirmations : Nat
  current_handedness : Option Handed
  pending_handedness : Option Handed
  pending_count : Nat
deriving DecidableEq, Repr

/-- `__init__` performs only field assignments: it contains no validation of
`confirmations` and raises no configuration error, so as a fallible
constructor it is always `.ok`. -/
def monitorInit (region : Region) (output_file : String) (interval : Rat)
    (confirmations : Nat) : Except String MonitorState :=
  .ok { region := region, output_file := output_file, interval := interval,
        confirmations := confirmations, current_handedness := none,
        pending_handedness := none, pending_count := 0 }

/-- Counterexample to C4 as stated: constructing the monitor with
confirmation threshold 0 succeeds — no `InvalidConfig` error is raised at
construction time. -/
theorem threshold_zero_construction_succeeds :
    monitorInit ⟨1510, 1110, 50, 50⟩ "player_handedness.txt" 1 0 =
      .ok ⟨⟨1510, 1110, 50, 50⟩, "player_handedness.txt", 1, 0, none, none, 0⟩ :=
  rfl

/-- C4 (amended): the constructor validates nothing — every threshold value,
including 0, is accepted and construction always succeeds; and a zero
threshold never manifests as a runtime error either: the debounce machine
simply confirms a fresh candidate on its second consecutive matching
observation (as it would with threshold 2). -/
theorem constructor_never_validates_threshold :
    (∀ (r : Region) (f : String) (i : Rat) (c : Nat),
        monitorInit r f i c = .ok ⟨r, f, i, c, none, none, 0⟩) ∧
      runOuts 0 initState [some Handed.RH, some Handed.RH] =
        [none, some Handed.RH] :=
  ⟨fun _ _ _ _ => rfl, by decide⟩

/-- A wall-clock time as produced by `datetime.now()` — the fields that
`strftime('%Y-%m-%d %H:%M:%S')` renders. -/
structure Timestamp where
  year : Nat
  month : Nat
  day : Nat
  hour : Nat
  minute : Nat
  second : Nat
deriving DecidableEq, Repr

/-- Two-digit zero-padded decimal rendering (`strftime`'s `%m`, `%d`, `%H`,
`%M`, `%S` for their in-range values). -/
def pad2 (n : Nat) : String :=
  String.mk [Nat.digitChar (n / 10 % 10), Nat.digitChar (n % 10)]

/-- Four-digit zero-padded decimal rendering (`strftime`'s `%Y` for years
below 10000). -/
def pad4 (n : Nat) : String :=
  String.mk [Nat.digitChar (n / 1000 % 10), Nat.digitChar (n / 100 % 10),
    Nat.digitChar (n / 10 % 10), Nat.digitChar (n % 10)]

/-- `datetime.now().strftime('%Y-%m-%d %H:%M:%S')`. -/
def strftimeFull (t : Timestamp) : String :=
  pad4 t.year ++ "-" ++ pad2 t.month ++ "-" ++ pad2 t.day ++ " " ++
    pad2 t.hour ++ ":" ++ pad2 t.minute ++ ":" ++ pad2 t.second

/-- The short code written to the output file for a confirmed value. -/
def handedCode : Handed → String
  | .RH => "RH"
  | .LH => "LH"

/-- The file content produced by a successful
`GSProHandednessMonitor.write_handedness` call
(`gspro_monitor.py` lines 306-316): the handedness code plus newline, then
`Updated: `, the formatted timestamp, and a newline. -/
def write_handedness (h : Handed) (now : Timestamp) : String :=
  handedCode h ++ "\n" ++ "Updated: " ++ strftimeFull now ++ "\n"

/-- Splits file text into lines (Python `splitlines` semantics: the trailing
newline does not yield a final empty line).  `acc` holds the current line's
characters in reverse. -/
def splitLinesAux : List Char → List Char → List String
  | acc, [] => if acc = [] then [] else [String.mk acc.reverse]
  | acc, c :: cs =>
    if c = '\n' then String.mk acc.reverse :: splitLinesAux [] cs
    else splitLinesAux (c :: acc) cs

/-- Reading the output file back as a list of lines. -/
def readLines (s : String) : List String := splitLinesAux [] s.data

/-- The numeric value of a decimal digit character. -/
def digitVal? (c : Char) : Option Nat :=
  if c.isDigit then some (c.toNat - 48) else none

/-- Digit extraction for the 14 digit positions of a parsed timestamp. -/
def parseFields (y1 y2 y3 y4 m1 m2 d1 d2 h1 h2 n1 n2 e1 e2 : Char) :
    Option Timestamp := do
  let a ← digitVal? y1
  let b ← digitVal? y2
  let c ← digitVal? y3
  let d ← digitVal? y4
  let mo1 ← digitVal? m1
  let mo2 ← digitVal? m2
  let da1 ← digitVal? d1
  let da2 ← digitVal? d2
  let ho1 ← digitVal? h1
  let ho2 ← digitVal? h2
  let mi1 ← digitVal? n1
  let mi2 ← digitVal? n2
  let se1 ← digitVal? e1
  let se2 ← digitVal? e2
  pure ⟨1000 * a + 100 * b + 10 * c + d, 10 * mo1 + mo2, 10 * da1 + da2,
    10 * ho1 + ho2, 10 * mi1 + mi2, 10 * se1 + se2⟩

/-- A parser for the `YYYY-MM-DD HH:MM:SS` timestamp format: exactly 19
characters, separators in the fixed positions, decimal digits elsewhere. -/
def parseTimestamp (s : String) : Option Timestamp :=
  match s.data with
  | [y1, y2, y3, y4, c1, m1, m2, c2, d1, d2, c3, h1, h2, c4, n1, n2, c5, e1, e2] =>
    if c1 = '-' ∧ c2 = '-' ∧ c3 = ' ' ∧ c4 = ':' ∧ c5 = ':' then
      parseFields y1 y2 y3 y4 m1 m2 d1 d2 h1 h2 n1 n2 e1 e2
    else none
  | _ => none

lemma digitChar_props : ∀ d : Nat, d < 10 →
    (Nat.digitChar d).isDigit = true ∧ digitVal? (Nat.digitChar d) = some d ∧
      Nat.digitChar d ≠ '\n' := by decide

lemma digitVal?_digitChar_mod (n : Nat) :
    digitVal? (Nat.digitChar (n % 10)) = some (n % 10) :=
  (digitChar_props (n % 10) (Nat.mod_lt _ (by norm_num))).2.1

lemma digitChar_mod_ne_newline (n : Nat) : Nat.digitChar (n % 10) ≠ '\n' :=
  (digitChar_props (n % 10) (Nat.mod_lt _ (by norm_num))).2.2

lemma strftimeFull_data (t : Timestamp) :
    (strftimeFull t).data =
      [Nat.digitChar (t.year / 1000 % 10), Nat.digitChar (t.year / 100 % 10),
       Nat.digitChar (t.year / 10 % 10), Nat.digitChar (t.year % 10), '-',
       Nat.digitChar (t.month / 10 % 10), Nat.digitChar (t.month % 10), '-',
       Nat.digitChar (t.day / 10 % 10), Nat.digitChar (t.day % 10), ' ',
       Nat.digitChar (t.hour / 10 % 10), Nat.digitChar (t.hour % 10), ':',
       Nat.digitChar (t.minute / 10 % 10), Nat.digitChar (t.minute % 10), ':',
       Nat.digitChar (t.second / 10 % 10), Nat.digitChar (t.second % 10)] := rfl

lemma newline_not_mem_strftime (t : Timestamp) : '\n' ∉ (strftimeFull t).data := by
  rw [strftimeFull_data]
  intro hmem
  simp only [List.mem_cons, List.not_mem_nil, or_false] at hmem
  rcases hmem with h|h|h|h|h|h|h|h|h|h|h|h|h|h|h|h|h|h|h
  all_goals first
    | exact digitChar_mod_ne_newline _ h.symm
    | simp at h

lemma splitLinesAux_break (a : List Char) (ha : '\n' ∉ a) :
    ∀ (acc rest : List Char),
      splitLinesAux acc (a ++ '\n' :: rest) =
        String.mk (acc.reverse ++ a) :: splitLinesAux [] rest := by
  induction a with
  | nil => intro acc rest; simp [splitLinesAux]
  | cons c a2 ih =>
    intro acc rest
    have hc : ¬ c = '\n' := fun hcc => ha (by simp [hcc])
    have ha2 : '\n' ∉ a2 := fun hmm => ha (by simp [hmm])
    simp only [List.cons_append, splitLinesAux, if_neg hc, List.append_eq]
    rw [ih ha2 (c :: acc) rest]
    simp

lemma data_append (s t : String) : (s ++ t).data = s.data ++ t.data := rfl

lemma mk_data (s : String) : String.mk s.data = s := rfl

lemma newline_not_mem_code (h : Handed) : '\n' ∉ (handedCode h).data := by
  cases h <;> decide

lemma newline_not_mem_updated (t : Timestamp) :
    '\n' ∉ ("Updated: " ++ strftimeFull t).data := by
  rw [data_append]
  intro hmem
  rcases List.mem_append.1 hmem with hh | hh
  · exact absurd hh (by decide)
  · exact newline_not_mem_strftime t hh

lemma write_handedness_data (h : Handed) (t : Timestamp) :
    (write_handedness h t).data =
      (handedCode h).data ++
        '\n' :: (("Updated: " ++ strftimeFull t).data ++ '\n' :: []) := by
  unfold write_handedness
  simp [data_append, List.append_assoc, show ("\n" : String).data = ['\n'] from rfl]

lemma readLines_write_handedness (h : Handed) (t : Timestamp) :
    readLines (write_handedness h t) =
      [handedCode h, "Updated: " ++ strftimeFull t] := by
  unfold readLines
  rw [write_handedness_data,
    splitLinesAux_break _ (newline_not_mem_code h) [] _,
    splitLinesAux_break _ (newline_not_mem_updated t) [] []]
  simp [splitLinesAux, mk_data]
  rfl

lemma parseTimestamp_mk
    (y1 y2 y3 y4 c1 m1 m2 c2 d1 d2 c3 h1 h2 c4 n1 n2 c5 e1 e2 : Char) :
    parseTimestamp (String.mk [y1, y2, y3, y4, c1, m1, m2, c2, d1, d2, c3,
        h1, h2, c4, n1, n2, c5, e1, e2]) =
      if c1 = '-' ∧ c2 = '-' ∧ c3 = ' ' ∧ c4 = ':' ∧ c5 = ':' then
        parseFields y1 y2 y3 y4 m1 m2 d1 d2 h1 h2 n1 n2 e1 e2
      else none := rfl

lemma strftimeFull_eq_mk (t : Timestamp) :
    strftimeFull t =
      String.mk
        [Nat.digitChar (t.year / 1000 % 10), Nat.digitChar (t.year / 100 % 10),
         Nat.digitChar (t.year / 10 % 10), Nat.digitChar (t.year % 10), '-',
         Nat.digitChar (t.month / 10 % 10), Nat.digitChar (t.month % 10), '-',
         Nat.digitChar (t.day / 10 % 10), Nat.digitChar (t.day % 10), ' ',
         Nat.digitChar (t.hour / 10 % 10), Nat.digitChar (t.hour % 10), ':',
         Nat.digitChar (t.minute / 10 % 10), Nat.digitChar (t.minute % 10), ':',
         Nat.digitChar (t.second / 10 % 10), Nat.digitChar (t.second % 10)] := rfl

lemma parseTimestamp_strftime (t : Timestamp) :
    parseTimestamp (strftimeFull t) =
      some ⟨t.year % 10000, t.month % 100, t.day % 100, t.hour % 100,
        t.minute % 100, t.second % 100⟩ := by
  rw [strftimeFull_eq_mk, parseTimestamp_mk, if_pos (by decide)]
  simp only [parseFields, digitVal?_digitChar_mod]
  have hy : 1000 * (t.year / 1000 % 10) + 100 * (t.year / 100 % 10) +
      10 * (t.year / 10 % 10) + t.year % 10 = t.year % 10000 := by omega
  have hmo : 10 * (t.month / 10 % 10) + t.month % 10 = t.month % 100 := by omega
  have hda : 10 * (t.day / 10 % 10) + t.day % 10 = t.day % 100 := by omega
  have hho : 10 * (t.hour / 10 % 10) + t.hour % 10 = t.hour % 100 := by omega
  have hmi : 10 * (t.minute / 10 % 10) + t.minute % 10 = t.minute % 100 := by omega
  have hse : 10 * (t.second / 10 % 10) + t.second % 10 = t.second % 100 := by omega
  show some (⟨1000 * (t.year / 1000 % 10) + 100 * (t.year / 100 % 10) +
      10 * (t.year / 10 % 10) + t.year % 10,
    10 * (t.month / 10 % 10) + t.month % 10, 10 * (t.day / 10 % 10) + t.day % 10,
    10 * (t.hour / 10 % 10) + t.hour % 10,
    10 * (t.minute / 10 % 10) + t.minute % 10,
    10 * (t.second / 10 % 10) + t.second % 10⟩ : Timestamp) = _
  rw [hy, hmo, hda, hho, hmi, hse]

/-- C9: writing a confirmed value `v` at wall-clock time `t` and reading the
output file back yields exactly two lines: line 1 is `v`'s short code and
line 2 is `Updated: ` followed by a timestamp that parses in the
`YYYY-MM-DD HH:MM:SS` format (recovering the written fields, reduced modulo
the format's field widths). -/
theorem write_handedness_roundtrip (h : Handed) (t : Timestamp) :
    readLines (write_handedness h t) =
      [handedCode h, "Updated: " ++ strftimeFull t] ∧
      parseTimestamp (strftimeFull t) =
        some ⟨t.year % 10000, t.month % 100, t.day % 100, t.hour % 100,
          t.minute % 100, t.second % 100⟩ :=
  ⟨readLines_write_handedness h t, parseTimestamp_strftime t⟩

/-- Outcome of the command write (`self.arduino.write(...)`, `flush`):
either it succeeds, raises `serial.SerialException` (handled by the
attempt-level `except serial.SerialException`), or raises some other
exception (handled by the attempt-level `except Exception`). -/
inductive WriteRes where
  | ok
  | serialErr
  | otherErr
deriving DecidableEq, Repr

/-- Outcome of the acknowledgment read loop: an acknowledgment-keyword line
arrived within the window; the window expired with no acknowledgment; a
`SerialException`/`OSError` was raised while reading (the inner handler
marks the handle dead and breaks); or some other exception was raised while
reading (the inner handler just breaks). -/
inductive ReadRes where
  | ack
  | timeout
  | serialErr
  | otherErr
deriving DecidableEq, Repr

/-- The environment one retry attempt of `send_arduino_command` runs
against: whether `connect_arduino()` would succeed if invoked, whether the
buffer resets succeed, how the command write behaves, how the read loop
ends, and whether the liveness-probe write (`write(b"\n")`) succeeds on a
live handle. -/
structure AttemptEnv where
  connectOk : Bool
  bufferOk : Bool
  writeRes : WriteRes
  readRes : ReadRes
  probeOk : Bool
deriving DecidableEq, Repr

/-- Externally visible actions of one `send_arduino_command` call:
a `connect_arduino()` attempt, a command-write attempt (bytes to the
port), and a liveness-probe write attempt (bytes to the port). -/
inductive PortAction where
  | connectA
  | writeA
  | probeA
deriving DecidableEq, Repr

/-- Result of one loop iteration: `halt` means the function returns now
(`res` is the returned Bool, `conn` whether `self.arduino` is still a live
handle, `acts` the actions performed); `nextTry` means the iteration fell
through to the next attempt. -/
inductive StepOut where
  | halt (res : Bool) (conn : Bool) (acts : List PortAction)
  | nextTry (conn : Bool) (acts : List PortAction)
deriving DecidableEq, Repr

/-- The connection state an iteration leaves behind. -/
def StepOut.conn2 : StepOut → Bool
  | .halt _ c _ => c
  | .nextTry c _ => c

/-- The actions an iteration performed. -/
def StepOut.acts : StepOut → List PortAction
  | .halt _ _ a => a
  | .nextTry _ a => a

/-- The body of one `for attempt in range(max_retries)` iteration of
`send_arduino_command` (`gspro_monitor.py` lines 126-240) from the point
where a live handle exists (after the reconnect check): clear buffers
(bare `except` → handle dropped), write the command (attempt-level
exception handlers), run the acknowledgment read loop, and on no
acknowledgment probe liveness and either fall through or — on the last
attempt — close the handle and return `False`.  `last` is
`attempt = max_retries - 1`. -/
def attemptAfterConnect (e : AttemptEnv) (last : Bool) (acts : List PortAction) : StepOut :=
  if e.bufferOk = false then
    -- `except:` on buffer clear → `self.arduino = None`, continue or return False
    if last then .halt false false acts else .nextTry false acts
  else
    match e.writeRes with
    | .serialErr =>
      -- `except serial.SerialException` → `self.arduino = None`
      if last then .halt false false (acts ++ [.writeA])
      else .nextTry false (acts ++ [.writeA])
    | .otherErr =>
      -- `except Exception` → handle left untouched (still live)
      if last then .halt false true (acts ++ [.writeA])
      else .nextTry true (acts ++ [.writeA])
    | .ok =>
      match e.readRes with
      | .ack =>
        -- `if got_acknowledgment: return True`
        .halt true true (acts ++ [.writeA])
      | .timeout =>
        -- probe the live handle; on the last attempt close it and fail
        if last then .halt false false (acts ++ [.writeA, .probeA])
        else .nextTry e.probeOk (acts ++ [.writeA, .probeA])
      | .serialErr =>
        -- the read loop already dropped the handle; the probe `write` on
        -- `None` raises `AttributeError`, caught by the bare `except`
        if last then .halt false false (acts ++ [.writeA])
        else .nextTry false (acts ++ [.writeA])
      | .otherErr =>
        -- handle still live: probe it, then fall through or fail
        if last then .halt false false (acts ++ [.writeA, .probeA])
        else .nextTry e.probeOk (acts ++ [.writeA, .probeA])

/-- One full iteration of the retry loop, starting at the
`if not self.arduino or not self.arduino.is_open:` reconnect check. -/
def attemptStep (e : AttemptEnv) (conn : Bool) (last : Bool) : StepOut :=
  if conn = false then
    if e.connectOk = false then
      -- `if not self.connect_arduino():` — sleep and continue, or return False
      if last then .halt false false [.connectA] else .nextTry false [.connectA]
    else attemptAfterConnect e last [.connectA]
  else attemptAfterConnect e last []

/-- What a `send_arduino_command` call did: the returned Bool, the final
handle state, the performed actions, and the number of loop iterations
executed. -/
structure SendResult where
  ok : Bool
  conn : Bool
  trace : List PortAction
  attempts : Nat
deriving DecidableEq, Repr

/-- The `for attempt in range(max_retries)` loop: `remaining` is the number
of iterations left (`max_retries - attempt`), so `remaining = 1` means this
is the last attempt (`attempt = max_retries - 1`); the fall-through after
the loop returns `False`. -/
def sendLoop (env : Nat → AttemptEnv) : Nat → Nat → Bool → SendResult
  | 0, _, conn => ⟨false, conn, [], 0⟩
  | remaining + 1, attempt, conn =>
    match attemptStep (env attempt) conn (remaining == 0) with
    | .halt res conn2 acts => ⟨res, conn2, acts, 1⟩
    | .nextTry conn2 acts =>
      let r := sendLoop env remaining (attempt + 1) conn2
      ⟨r.ok, r.conn, acts ++ r.trace, r.attempts + 1⟩

/-- `GSProHandednessMonitor.send_arduino_command`: returns `False`
immediately when no `arduino_port` is configured, otherwise runs the retry
loop with `max_retries = 3`. -/
def send_arduino_command (env : Nat → AttemptEnv) (portConfigured : Bool)
    (conn : Bool) : SendResult :=
  if portConfigured = false then ⟨false, conn, [], 0⟩
  else sendLoop env 3 0 conn

/-- Is this action a `connect_arduino()` attempt? -/
def isConnectA : PortAction → Bool
  | .connectA => true
  | _ => false

/-- Scans an action list left to right: `true` iff every byte-writing action
(`writeA`, `probeA`) is preceded by a connect attempt (or the connection
was already live, signalled by starting flag `seen = true`). -/
def noWriteBeforeConnect : Bool → List PortAction → Bool
  | _, [] => true
  | _, .connectA :: rest => noWriteBeforeConnect true rest
  | seen, .writeA :: rest => seen && noWriteBeforeConnect seen rest
  | seen, .probeA :: rest => seen && noWriteBeforeConnect seen rest

lemma attemptStep_next_of_no_ack (e : AttemptEnv) (conn : Bool)
    (hack : e.readRes ≠ ReadRes.ack) :
    ∃ c2 a2, attemptStep e conn false = .nextTry c2 a2 := by
  rcases e with ⟨co, bo, wr, rr, po⟩
  cases conn <;> cases co <;> cases bo <;> cases wr <;> cases rr <;> cases po <;>
    first
      | exact absurd rfl hack
      | exact ⟨_, _, rfl⟩

lemma attemptStep_last_of_no_ack (e : AttemptEnv) (conn : Bool)
    (hack : e.readRes ≠ ReadRes.ack) :
    ∃ c2 a2, attemptStep e conn true = .halt false c2 a2 ∧
      (e.bufferOk = false ∨ e.writeRes = WriteRes.serialErr → c2 = false) := by
  rcases e with ⟨co, bo, wr, rr, po⟩
  cases conn <;> cases co <;> cases bo <;> cases wr <;> cases rr <;> cases po <;>
    first
      | exact absurd rfl hack
      | exact ⟨_, _, rfl, by decide⟩

/-- C7: a `Send` issued while the channel is disconnected, in any
environment where no attempt ever observes an acknowledgment, returns
`Failure` (`False`) and executes at most `max_retries = 3`
connection-plus-send attempts.  (No exception escapes: every handler of
`send_arduino_command` is transcribed in `attemptStep`, whose result is a
total value, never a propagated error.) -/
theorem send_disconnected_fails_within_three_attempts
    (env : Nat → AttemptEnv) (hack : ∀ i, (env i).readRes ≠ ReadRes.ack) :
    (send_arduino_command env true false).ok = false ∧
      (send_arduino_command env true false).attempts ≤ 3 := by
  obtain ⟨c0, a0, h0⟩ := attemptStep_next_of_no_ack (env 0) false (hack 0)
  obtain ⟨c1, a1, h1⟩ := attemptStep_next_of_no_ack (env 1) c0 (hack 1)
  obtain ⟨c2, a2, h2, _⟩ := attemptStep_last_of_no_ack (env 2) c1 (hack 2)
  simp [send_arduino_command, sendLoop, h0, h1, h2]

/-- Witness for C7: an environment whose port always opens and whose
peripheral never answers — the call fails after at most three attempts. -/
theorem send_disconnected_fails_witness :
    (send_arduino_command
        (fun _ => ⟨true, true, WriteRes.ok, ReadRes.timeout, true⟩)
        true false).ok = false ∧
      (send_arduino_command
        (fun _ => ⟨true, true, WriteRes.ok, ReadRes.timeout, true⟩)
        true false).attempts ≤ 3 :=
  send_disconnected_fails_within_three_attempts
    (fun _ => ⟨true, true, WriteRes.ok, ReadRes.timeout, true⟩)
    (fun _ => show ReadRes.timeout ≠ ReadRes.ack by decide)

lemma noWriteBeforeConnect_append (s : Bool) (a b : List PortAction) :
    noWriteBeforeConnect s (a ++ b) =
      (noWriteBeforeConnect s a &&
        noWriteBeforeConnect (s || a.any isConnectA) b) := by
  induction a generalizing s with
  | nil => simp [noWriteBeforeConnect]
  | cons x rest ih =>
    cases x <;>
      simp [noWriteBeforeConnect, isConnectA, ih, Bool.and_assoc]

lemma attemptStep_trace (e : AttemptEnv) (conn last s : Bool)
    (hcs : conn = true → s = true) :
    noWriteBeforeConnect s (attemptStep e conn last).acts = true ∧
      ((attemptStep e conn last).conn2 = true →
        (s || (attemptStep e conn last).acts.any isConnectA) = true) := by
  rcases e with ⟨co, bo, wr, rr, po⟩
  revert hcs
  cases conn <;> cases s <;> cases last <;> cases co <;> cases bo <;>
    cases wr <;> cases rr <;> cases po <;> decide

lemma sendLoop_trace (env : Nat → AttemptEnv) :
    ∀ (remaining attempt : Nat) (conn s : Bool), (conn = true → s = true) →
      noWriteBeforeConnect s (sendLoop env remaining attempt conn).trace = true := by
  intro remaining
  induction remaining with
  | zero => intro attempt conn s hcs; rfl
  | succ r ih =>
    intro attempt conn s hcs
    obtain ⟨h1, h2⟩ := attemptStep_trace (env attempt) conn (r == 0) s hcs
    cases hstep : attemptStep (env attempt) conn (r == 0) with
    | halt res c2 a2 =>
      rw [hstep] at h1
      simp only [sendLoop, hstep]
      exact h1
    | nextTry c2 a2 =>
      rw [hstep] at h1 h2
      simp only [sendLoop, hstep]
      rw [noWriteBeforeConnect_append]
      exact Bool.and_eq_true_iff.2
        ⟨h1, ih (attempt + 1) c2 (s || a2.any isConnectA) h2⟩

lemma attemptStep_disconnected_head (e : AttemptEnv) (last : Bool) :
    ∃ rest, (attemptStep e false last).acts = PortAction.connectA :: rest := by
  rcases e with ⟨co, bo, wr, rr, po⟩
  cases last <;> cases co <;> cases bo <;> cases wr <;> cases rr <;> cases po <;>
    exact ⟨_, rfl⟩

lemma send_disconnected_starts_with_connect (env : Nat → AttemptEnv) :
    (send_arduino_command env true false).trace.head? = some PortAction.connectA := by
  obtain ⟨r0, h0⟩ := attemptStep_disconnected_head (env 0) ((2 : Nat) == 0)
  cases hstep : attemptStep (env 0) false ((2 : Nat) == 0) with
  | halt res c2 a2 =>
    rw [hstep] at h0
    simp only [send_arduino_command, sendLoop, hstep]
    simp only [StepOut.acts] at h0
    simp [h0]
  | nextTry c2 a2 =>
    rw [hstep] at h0
    simp only [send_arduino_command, sendLoop, hstep]
    simp only [StepOut.acts] at h0
    simp [h0]

lemma send_from_disconnected_no_write_before_connect (env : Nat → AttemptEnv) :
    noWriteBeforeConnect false (send_arduino_command env true false).trace = true := by
  have := sendLoop_trace env 3 0 false false (fun hcontra => by cases hcontra)
  simpa [send_arduino_command] using this

/-- C8: if a `Send` fails because an I/O error (`serial.SerialException` on
the command write, or any exception while clearing the buffers) occurred on
the final attempt — with no attempt observing an acknowledgment — then the
channel is left disconnected (`self.arduino = None`), and the next `Send`
call (any environment `env2`) begins with a fresh `connect_arduino()`
attempt and writes no bytes to the port before a connect attempt. -/
theorem send_io_failure_disconnects_and_reconnects_first
    (env env2 : Nat → AttemptEnv) (c0 : Bool)
    (hack : ∀ i, (env i).readRes ≠ ReadRes.ack)
    (hio : (env 2).bufferOk = false ∨ (env 2).writeRes = WriteRes.serialErr) :
    (send_arduino_command env true c0).ok = false ∧
      (send_arduino_command env true c0).conn = false ∧
      (send_arduino_command env2 true
          (send_arduino_command env true c0).conn).trace.head? =
        some PortAction.connectA ∧
      noWriteBeforeConnect false
        (send_arduino_command env2 true
          (send_arduino_command env true c0).conn).trace = true := by
  obtain ⟨d0, a0, h0⟩ := attemptStep_next_of_no_ack (env 0) c0 (hack 0)
  obtain ⟨d1, a1, h1⟩ := attemptStep_next_of_no_ack (env 1) d0 (hack 1)
  obtain ⟨d2, a2, h2, hd2⟩ := attemptStep_last_of_no_ack (env 2) d1 (hack 2)
  have hconn : (send_arduino_command env true c0).conn = false := by
    simp [send_arduino_command, sendLoop, h0, h1, h2, hd2 hio]
  refine ⟨?_, hconn, ?_, ?_⟩
  · simp [send_arduino_command, sendLoop, h0, h1, h2]
  · rw [hconn]
    exact send_disconnected_starts_with_connect env2
  · rw [hconn]
    exact send_from_disconnected_no_write_before_connect env2

/-- Witness for C8: every attempt's buffer clear raises, so the final
attempt fails with an I/O error; the follow-up call's first action is a
connect attempt and no write precedes it. -/
theorem send_io_failure_disconnects_witness :
    (send_arduino_command
        (fun _ => ⟨true, false, WriteRes.ok, ReadRes.timeout, true⟩)
        true true).ok = false ∧
      (send_arduino_command
        (fun _ => ⟨true, false, WriteRes.ok, ReadRes.timeout, true⟩)
        true true).conn = false ∧
      (send_arduino_command
          (fun _ => ⟨true, true, WriteRes.ok, ReadRes.ack, true⟩) true
          (send_arduino_command
            (fun _ => ⟨true, false, WriteRes.ok, ReadRes.timeout, true⟩)
            true true).conn).trace.head? = some PortAction.connectA ∧
      noWriteBeforeConnect false
        (send_arduino_command
          (fun _ => ⟨true, true, WriteRes.ok, ReadRes.ack, true⟩) true
          (send_arduino_command
            (fun _ => ⟨true, false, WriteRes.ok, ReadRes.timeout, true⟩)
            true true).conn).trace = true :=
  send_io_failure_disconnects_and_reconnects_first
    (fun _ => ⟨true, false, WriteRes.ok, ReadRes.timeout, true⟩)
    (fun _ => ⟨true, true, WriteRes.ok, ReadRes.ack, true⟩) true
    (fun _ => show ReadRes.timeout ≠ ReadRes.ack by decide)
    (Or.inl rfl)
